import Mathlib

/-!
Verification development for the `gilbreth` robot trajectory executor
(`src/gilbreth_grasp_planning/src/robot_trajectory_executor.cpp`).

The executor's per-tick callback `TrajExecutor::executionTimerCb` is embedded
as a pure function from an environment (the results returned by the external
planning / execution / gripper / attachment collaborators during one cycle)
and a state (task queue, busy flag) to a new state together with a trace of
the externally visible actions the callback performs, in order.  The
`ScopeExit` destructor of the source is embedded as a suffix of events that
every exit path appends.  Poses are generic in a multiplicative type `α`;
for the orientation claims `α` is instantiated with `Quaternion ℝ`,
mirroring the source's `Eigen::Quaterniond` arithmetic.
-/

namespace Gilbreth

/-- The two controllers (`robot_arm_info_.controller_name`,
`robot_rail_info_.controller_name`). -/
inductive Ctrl
  | arm
  | rail
  deriving DecidableEq, Repr

/-- The two move groups (`robot_arm_info_.group_name`, `robot_rail_info_.group_name`). -/
inductive Grp
  | arm
  | rail
  deriving DecidableEq, Repr

/-- The named motion segments of one cycle. -/
inductive Seg
  | approach
  | pick
  | retreat
  | place
  deriving DecidableEq, Repr

/-- The two monitor callbacks installed on `monitor_attached_timer_`:
`monitor_attached_funct` (stop-on-attach) and `monitor_gripper_funct`
(stop-on-detach). -/
inductive MonitorMode
  | stopOnAttach
  | stopOnDetach
  deriving DecidableEq, Repr

/-- One externally visible action of `executionTimerCb`, in program order.
`α` is the type of pose payloads carried by planning requests. -/
inductive Event (α : Type) where
  /-- call `activateController(name, activate)`. -/
  | switchCtrl (c : Ctrl) (activate : Bool)
  /-- call `move_group->stop()`. -/
  | stopGroup (g : Grp)
  /-- call `setGripper(enable)`. -/
  | gripper (enable : Bool)
  /-- pop the front of `targets_queue_`. -/
  | dequeue
  /-- write the `busy_` flag. -/
  | setBusy (b : Bool)
  /-- call `planTrajectory(..., pose, z_angle_tolerance)` for one segment. -/
  | planRequest (g : Grp) (s : Seg) (pose : α) (tol : ℚ)
  /-- call `executeTrajectory(robot_info, traj)` for one segment. -/
  | execTrajectory (g : Grp) (s : Seg)
  /-- blocking sleep of `d` seconds. -/
  | sleep (d : ℚ)
  /-- install a monitor callback on `monitor_attached_timer_`. -/
  | monitorStart (m : MonitorMode)
  /-- call `monitor_attached_timer_.stop()`. -/
  | monitorStop
  /-- the detach monitor observed a lost attachment and wrote `proceed = false`. -/
  | graspLost
  /-- call `moveToWaitPose(async)`: named-target move to the wait pose. -/
  | moveNamed (g : Grp) (async : Bool)
  deriving DecidableEq, Repr

/-- A planned joint trajectory: the `time_from_start` stamps of its waypoints
(`trajectory_.joint_trajectory.points`). -/
structure Traj where
  points : List ℚ
  deriving DecidableEq, Repr

/-- duration `points.back().time_from_start`: the planned duration used by the deadline gate. -/
def Traj.duration (t : Traj) : ℚ := t.points.getLastD 0

/-- One queued `gilbreth_msgs::TargetToolPoses` message: the four goal poses
(only their orientation payload is modelled, in a multiplicative type `α`)
and `pick_pose.header.stamp`, the object's predicted arrival time. -/
structure Task (α : Type) where
  approachPose : α
  pickPose : α
  retreatPose : α
  placePose : α
  pickTime : ℚ
  deriving DecidableEq, Repr

/-- The responses of the external collaborators during one cycle, plus the
linearisation of the concurrent detach monitor.  `lossPoint = some k` means
the detach monitor observes a lost attachment at interleaving point `k`:
`0` = after the monitor is installed and before the retreat execution,
`1` = during the retreat execution (before the first `proceed` check),
`2` = during the place planning (before the second `proceed` check),
`3` = during the place execution.  `none` (or a point never reached) means
attachment is never lost. -/
structure CycleEnv where
  /-- `ros::Time::now()` sampled once at line 324. -/
  now : ℚ
  approachPlan : Option Traj
  approachExecOk : Bool
  pickPlan : Option Traj
  /-- result of `setGripper(true)` at line 334. -/
  gripperOnOk : Bool
  pickExecOk : Bool
  /-- the value of `gripper_attached_` read at the k-th poll of the
  wait-until-attached loop. -/
  attached : Nat → Bool
  lossPoint : Option Nat
  retreatPlan : Option Traj
  retreatExecOk : Bool
  placePlan : Option Traj
  placeExecOk : Bool
  /-- result of `setGripper(false)` at line 455. -/
  gripperOffOk : Bool

/-- constant `WAIT_ATTACHED_TIME = 2.0`. -/
def WAIT_ATTACHED_TIME : ℚ := 2

/-- the polling period `ros::Duration wait_period(0.01)` of `wait_until_attached_funct`. -/
def WAIT_PERIOD : ℚ := 1 / 100

/-- the controller of a group: `RobotControlInfo` couples each group name with
its controller name. -/
def ctrlOf : Grp → Ctrl
  | .arm => .arm
  | .rail => .rail

/-- the lambda `rotate_pose_funct`: `q = q * rot` on the pose orientation. -/
def rotate_pose {α : Type} [Mul α] (pose rot : α) : α := pose * rot

/-- orientation tolerances `\x7b0.01, 0.01, z_angle_tolerance\x7d` passed by
`createGoalConstraints` to `constructGoalConstraints`. -/
def orientation_tolerances (z_angle_tolerance : ℚ) : List ℚ :=
  [1 / 100, 1 / 100, z_angle_tolerance]

/-- events of `executeTrajectory(robot_info, traj)` (source lines 513-521):
activate the group's controller, execute, deactivate the same controller. -/
def execTrajEvents {α : Type} (g : Grp) (s : Seg) : List (Event α) :=
  [.switchCtrl (ctrlOf g) true, .execTrajectory g s, .switchCtrl (ctrlOf g) false]

/-- events of `moveToWaitPose(async)` (source lines 463-481): deactivate the
arm controller, activate the rail controller, move the rail group to its
named wait pose. -/
def moveToWaitEvents {α : Type} (async : Bool) : List (Event α) :=
  [.switchCtrl .arm false, .switchCtrl .rail true, .moveNamed .rail async]

/-- events of the `ScopeExit` destructor (source lines 254-274), run on every
exit path of the cycle: return to the wait pose (synchronously when `proceed`
is false, asynchronously followed by a 3 s pause when it is true), release
the gripper, deactivate both controllers, stop the monitor timer, clear
`busy_` last. -/
def scopeExitEvents {α : Type} (proceed : Bool) : List (Event α) :=
  (if proceed then moveToWaitEvents true ++ [.sleep 3] else moveToWaitEvents false) ++
    [.gripper false, .switchCtrl .arm false, .switchCtrl .rail false, .monitorStop,
      .setBusy false]

/-- events of `monitor_gripper_funct` firing (source lines 391-402): set
`proceed = false`, stop both groups, stop the monitor timer. -/
def lossEvents {α : Type} : List (Event α) :=
  [.graspLost, .stopGroup .rail, .stopGroup .arm, .monitorStop]

/-- events issued between the busy check and the approach planning (source
lines 225-292): set `busy_`, deactivate both controllers, release the
gripper, stop both groups, pop the front task. -/
def preludeEvents {α : Type} : List (Event α) :=
  [.setBusy true, .switchCtrl .arm false, .switchCtrl .rail false, .gripper false,
    .stopGroup .rail, .stopGroup .arm, .dequeue]

/-- the loop of `wait_until_attached_funct`: check `gripper_attached_`, sleep
one period, repeat while the elapsed time is below the bound.  `n` is the
number of polls remaining, `i` the index of the current poll. -/
def waitLoop (attached : Nat → Bool) : Nat → Nat → Bool
  | 0, _ => false
  | n + 1, i => if attached i then true else waitLoop attached n (i + 1)

/-- number of iterations of the `while(time_elapsed < wait_time)` loop:
`time_elapsed` after `k` iterations is `k * period`. -/
def iterCount (wait_time period : ℚ) : Nat := (wait_time / period).ceil.toNat

/-- loop `wait_until_attached_funct` (source lines 359-378): poll
`gripper_attached_` every `period` seconds for up to `wait_time` seconds;
true iff attachment was observed at one of the polls. -/
def wait_until_attached (attached : Nat → Bool) (wait_time period : ℚ) : Bool :=
  waitLoop attached (iterCount wait_time period) 0

/-- place section of the cycle (source lines 429-460): plan the place move on
the rail group with yaw tolerance `3.14`, abort on planning failure, skip
execution when `proceed` is false, otherwise execute, stop the monitor and
release the gripper. -/
def placeSection {α : Type} [Mul α] (place_rotation : α) (env : CycleEnv) (task : Task α) :
    List (Event α) :=
  [Event.planRequest .rail .place (rotate_pose task.placePose place_rotation) (157 / 50)] ++
    (if env.lossPoint = some 2 then lossEvents else []) ++
    match env.placePlan with
    | none => if env.lossPoint = some 2 then scopeExitEvents false else scopeExitEvents true
    | some _ =>
      if env.lossPoint = some 2 then scopeExitEvents false
      else
        execTrajEvents .rail .place ++
          (if env.lossPoint = some 3 then lossEvents else []) ++
          [Event.monitorStop, Event.gripper false] ++
          (if env.lossPoint = some 3 then scopeExitEvents false else scopeExitEvents true)

/-- retreat section of the cycle (source lines 405-427): plan the retreat
move on the arm group, abort on planning failure, execute (not gated by
`proceed`), then check `proceed` and fall to cleanup when it is false. -/
def retreatSection {α : Type} [Mul α] (pick_rotation place_rotation : α) (env : CycleEnv)
    (task : Task α) : List (Event α) :=
  (if env.lossPoint = some 0 then lossEvents else []) ++
    [Event.planRequest .arm .retreat (rotate_pose task.retreatPose pick_rotation) (1 / 10)] ++
    match env.retreatPlan with
    | none => if env.lossPoint = some 0 then scopeExitEvents false else scopeExitEvents true
    | some _ =>
      execTrajEvents .arm .retreat ++
        (if env.lossPoint = some 1 then lossEvents else []) ++
        if env.lossPoint = some 0 ∨ env.lossPoint = some 1 then scopeExitEvents false
        else placeSection place_rotation env task

/-- pick section of the cycle (source lines 309-403): plan the pick move on
the arm group, evaluate the deadline gate at a single time snapshot, sleep
the wait interval, enable the gripper, run the stop-on-attach monitor around
the pick execution, block until attachment (bounded), then install the
stop-on-detach monitor. -/
def pickSection {α : Type} [Mul α] (pick_rotation place_rotation : α) (env : CycleEnv)
    (task : Task α) : List (Event α) :=
  [Event.planRequest .arm .pick (rotate_pose task.pickPose pick_rotation) (1 / 10)] ++
    match env.pickPlan with
    | none => scopeExitEvents true
    | some pick_traj =>
      if task.pickTime < env.now + pick_traj.duration then scopeExitEvents true
      else
        [Event.sleep (task.pickTime - env.now - pick_traj.duration), Event.gripper true] ++
          if env.gripperOnOk then
            [Event.monitorStart .stopOnAttach] ++ execTrajEvents .arm .pick ++
              [Event.monitorStop] ++
              (if wait_until_attached env.attached WAIT_ATTACHED_TIME WAIT_PERIOD then
                [Event.monitorStart .stopOnDetach] ++
                  retreatSection pick_rotation place_rotation env task
              else scopeExitEvents true)
          else scopeExitEvents true

/-- body of one orchestration cycle of `executionTimerCb` (source lines
225-461), from setting `busy_` to the `ScopeExit` destructor: the event trace
it produces given the collaborators' responses in `env`. -/
def runCycle {α : Type} [Mul α] (pick_rotation place_rotation : α) (env : CycleEnv)
    (task : Task α) : List (Event α) :=
  preludeEvents ++
    [Event.planRequest .rail .approach (rotate_pose task.approachPose pick_rotation) (1 / 10)] ++
    match env.approachPlan with
    | none => scopeExitEvents true
    | some _ =>
      execTrajEvents .rail .approach ++ pickSection pick_rotation place_rotation env task

/-- the mutable state of `TrajExecutor` relevant to one tick: the FIFO
`targets_queue_` and the `busy_` flag. -/
structure ExecState (α : Type) where
  targets_queue : List (Task α)
  busy : Bool
  deriving DecidableEq, Repr

/-- tick `TrajExecutor::executionTimerCb` (source lines 212-461): no-op when the
queue is empty; no-op (log only) when busy; otherwise run one cycle on the
front task.  Returns the state after the tick and the trace of the tick. -/
def executionTimerCb {α : Type} [Mul α] (pick_rotation place_rotation : α) (env : CycleEnv)
    (st : ExecState α) : ExecState α × List (Event α) :=
  match st.targets_queue with
  | [] => (st, [])
  | t :: rest =>
    if st.busy then (st, [])
    else (⟨rest, false⟩, runCycle pick_rotation place_rotation env t)

/-- rotation about the world Z axis by angle `a`, as a unit quaternion: the
conversion of the source's `Eigen::AngleAxisd(a, Eigen::Vector3d::UnitZ())`. -/
noncomputable def rotZ (a : ℝ) : Quaternion ℝ :=
  ⟨Real.cos (a / 2), 0, 0, Real.sin (a / 2)⟩

/-- the source's `pick_rotation` (line 231): the identity quaternion times a
rotation about Z by the configured preferred pick angle. -/
noncomputable def pick_rotation_of (angle : ℝ) : Quaternion ℝ := 1 * rotZ angle

/-- the source's `place_rotation` (line 232): `pick_rotation` times a further
half-turn about Z. -/
noncomputable def place_rotation_of (angle : ℝ) : Quaternion ℝ :=
  pick_rotation_of angle * rotZ Real.pi

/-- composition of Z rotations adds their angles. -/
theorem rotZ_mul (a b : ℝ) : rotZ a * rotZ b = rotZ (a + b) := by
  have h : (a + b) / 2 = a / 2 + b / 2 := by ring
  unfold rotZ
  ext
  · simp [Quaternion.mul_re, h, Real.cos_add]
  · simp [Quaternion.mul_imI]
  · simp [Quaternion.mul_imJ]
  · simp [Quaternion.mul_imK, h, Real.sin_add]
    ring

/-- the pick rotation is the plain Z rotation by the configured angle. -/
theorem pick_rotation_eq_rotZ (angle : ℝ) : pick_rotation_of angle = rotZ angle :=
  one_mul _

/-- the place rotation is the Z rotation by the configured angle plus a half-turn. -/
theorem place_rotation_eq_rotZ (angle : ℝ) :
    place_rotation_of angle = rotZ (angle + Real.pi) := by
  rw [place_rotation_of, pick_rotation_eq_rotZ, rotZ_mul]

/-- which controllers the controller-switching service currently has active,
assuming every best-effort switch request succeeds. -/
structure CtrlSet where
  armActive : Bool
  railActive : Bool
  deriving DecidableEq, Repr

/-- effect of one trace event on the active-controller set. -/
def applyEvent {α : Type} (s : CtrlSet) : Event α → CtrlSet
  | .switchCtrl .arm b => ⟨b, s.railActive⟩
  | .switchCtrl .rail b => ⟨s.armActive, b⟩
  | _ => s

/-- at most one controller is active. -/
def cardLE1 (s : CtrlSet) : Bool := !(s.armActive && s.railActive)

/-- exactly the given group's controller is active, the other inactive. -/
def activeOnly : Grp → CtrlSet
  | .arm => ⟨true, false⟩
  | .rail => ⟨false, true⟩

/-- walk a trace from controller state `s`, checking that at every step at
most one controller is active and that at each trajectory execution exactly
the executing group's controller is active. -/
def ctrlInv {α : Type} : CtrlSet → List (Event α) → Bool
  | _, [] => true
  | s, e :: rest =>
    (cardLE1 s &&
      match e with
      | .execTrajectory g _ => decide (s = activeOnly g)
      | _ => true) &&
    ctrlInv (applyEvent s e) rest

theorem ctrlInv_append {α : Type} (l₁ l₂ : List (Event α)) (s : CtrlSet) :
    ctrlInv s (l₁ ++ l₂) = (ctrlInv s l₁ && ctrlInv (l₁.foldl applyEvent s) l₂) := by
  induction l₁ generalizing s with
  | nil => simp [ctrlInv]
  | cons e rest ih => simp [ctrlInv, ih, Bool.and_assoc]

/-- the event marking that the detach monitor wrote `proceed = false`. -/
def isLost {α : Type} : Event α → Bool
  | .graspLost => true
  | _ => false

/-- the event is a trajectory execution. -/
def isExecEvent {α : Type} : Event α → Bool
  | .execTrajectory _ _ => true
  | _ => false

/-- the tail of the trace from the moment the detach monitor set
`proceed = false` (empty when it never fired). -/
def afterLoss {α : Type} (tr : List (Event α)) : List (Event α) :=
  tr.dropWhile (fun e => !(isLost e))

/-- the arguments of the `setGripper` calls of a trace, in order. -/
def gripperCmds {α : Type} (tr : List (Event α)) : List Bool :=
  tr.filterMap fun e =>
    match e with
    | .gripper b => some b
    | _ => none

/-- the argument of the last `setGripper` call of a trace. -/
def lastGripperCmd {α : Type} (tr : List (Event α)) : Option Bool :=
  (gripperCmds tr).getLast?

/-- the polling loop observes an attachment within its bound iff some polled
value in the window is true. -/
theorem waitLoop_eq_true_iff (attached : Nat → Bool) :
    ∀ n i, waitLoop attached n i = true ↔ ∃ k, k < n ∧ attached (i + k) = true := by
  intro n
  induction n with
  | zero => intro i; simp [waitLoop]
  | succ n ih =>
    intro i
    rw [waitLoop]
    cases hai : attached i
    · rw [if_neg (by simp [hai]), ih]
      constructor
      · rintro ⟨k, hk, ha⟩
        exact ⟨k + 1, by omega, by rwa [show i + (k + 1) = i + 1 + k by omega]⟩
      · rintro ⟨k, hk, ha⟩
        rcases k with _ | k
        · simp [hai] at ha
        · exact ⟨k, by omega, by rwa [show i + 1 + k = i + (k + 1) by omega]⟩
    · rw [if_pos (by simp [hai])]
      constructor
      · intro _
        exact ⟨0, Nat.succ_pos n, by simpa using hai⟩
      · intro _
        rfl

/-- the wait loop makes 200 polls: one each 0.01 s while the elapsed time is
below 2.0 s. -/
theorem iterCount_wait : iterCount WAIT_ATTACHED_TIME WAIT_PERIOD = 200 := by
  have h : WAIT_ATTACHED_TIME / WAIT_PERIOD = (200 : ℚ) := by
    norm_num [WAIT_ATTACHED_TIME, WAIT_PERIOD]
  rw [iterCount, h]
  rfl

/-- characterisation of `wait_until_attached_funct` at the source's bounds. -/
theorem wait_until_attached_iff (attached : Nat → Bool) :
    wait_until_attached attached WAIT_ATTACHED_TIME WAIT_PERIOD = true ↔
      ∃ k, k < 200 ∧ attached k = true := by
  rw [wait_until_attached, iterCount_wait, waitLoop_eq_true_iff]
  simp

/-- appending a head to a trace that ends in the cleanup suffix keeps it. -/
theorem suffix_append {α : Type} (A : List (Event α)) {X : List (Event α)}
    (h : ∃ l p, X = l ++ scopeExitEvents p) :
    ∃ l p, A ++ X = l ++ scopeExitEvents p := by
  obtain ⟨l, p, hX⟩ := h
  exact ⟨A ++ l, p, by rw [hX, List.append_assoc]⟩

theorem scope_suffix_self {α : Type} (q : Bool) :
    ∃ l p, (scopeExitEvents q : List (Event α)) = l ++ scopeExitEvents p :=
  ⟨[], q, (List.nil_append _).symm⟩

theorem ite_scope_suffix {α : Type} (c : Prop) [Decidable c] (q r : Bool) :
    ∃ l p, (if c then scopeExitEvents q else scopeExitEvents r : List (Event α)) =
      l ++ scopeExitEvents p := by
  split
  · exact scope_suffix_self q
  · exact scope_suffix_self r

theorem placeSection_suffix {α : Type} [Mul α] (plr : α) (env : CycleEnv) (task : Task α) :
    ∃ l p, placeSection plr env task = l ++ scopeExitEvents p := by
  rw [placeSection]
  rcases env.placePlan with _ | pl
  · simp only [List.append_assoc]
    exact suffix_append _ (suffix_append _ (ite_scope_suffix _ false true))
  · by_cases h2 : env.lossPoint = some 2
    · simp only [if_pos h2, List.append_assoc]
      exact suffix_append _ (suffix_append _ (scope_suffix_self false))
    · simp only [if_neg h2, List.append_assoc]
      exact suffix_append _ (suffix_append _ (suffix_append _ (suffix_append _
        (suffix_append _ (ite_scope_suffix _ false true)))))

theorem retreatSection_suffix {α : Type} [Mul α] (pr plr : α) (env : CycleEnv)
    (task : Task α) :
    ∃ l p, retreatSection pr plr env task = l ++ scopeExitEvents p := by
  rw [retreatSection]
  rcases env.retreatPlan with _ | rt
  · simp only [List.append_assoc]
    exact suffix_append _ (suffix_append _ (ite_scope_suffix _ false true))
  · by_cases h01 : env.lossPoint = some 0 ∨ env.lossPoint = some 1
    · simp only [if_pos h01, List.append_assoc]
      exact suffix_append _ (suffix_append _ (suffix_append _ (suffix_append _
        (scope_suffix_self false))))
    · simp only [if_neg h01, List.append_assoc]
      exact suffix_append _ (suffix_append _ (suffix_append _ (suffix_append _
        (placeSection_suffix plr env task))))

theorem pickSection_suffix {α : Type} [Mul α] (pr plr : α) (env : CycleEnv) (task : Task α) :
    ∃ l p, pickSection pr plr env task = l ++ scopeExitEvents p := by
  rw [pickSection]
  rcases env.pickPlan with _ | pt
  · exact suffix_append _ (scope_suffix_self true)
  · by_cases hg : task.pickTime < env.now + pt.duration
    · simp only [if_pos hg]
      exact suffix_append _ (scope_suffix_self true)
    · simp only [if_neg hg, List.append_assoc]
      by_cases hgo : env.gripperOnOk = true
      · simp only [if_pos hgo]
        by_cases hw : wait_until_attached env.attached WAIT_ATTACHED_TIME WAIT_PERIOD = true
        · simp only [if_pos hw, List.append_assoc]
          exact suffix_append _ (suffix_append _ (suffix_append _ (suffix_append _
            (suffix_append _ (suffix_append _ (retreatSection_suffix pr plr env task))))))
        · simp only [if_neg hw, List.append_assoc]
          exact suffix_append _ (suffix_append _ (suffix_append _ (suffix_append _
            (suffix_append _ (scope_suffix_self true)))))
      · simp only [if_neg hgo]
        exact suffix_append _ (suffix_append _ (scope_suffix_self true))

theorem runCycle_suffix {α : Type} [Mul α] (pr plr : α) (env : CycleEnv) (task : Task α) :
    ∃ l p, runCycle pr plr env task = l ++ scopeExitEvents p := by
  rw [runCycle]
  rcases env.approachPlan with _ | ap
  · simp only [List.append_assoc]
    exact suffix_append _ (suffix_append _ (scope_suffix_self true))
  · simp only [List.append_assoc]
    exact suffix_append _ (suffix_append _ (suffix_append _
      (pickSection_suffix pr plr env task)))

theorem scope_ne_nil {α : Type} (p : Bool) : (scopeExitEvents p : List (Event α)) ≠ [] := by
  cases p <;> simp [scopeExitEvents, moveToWaitEvents]

theorem scope_getLast {α : Type} (p : Bool) :
    (scopeExitEvents p : List (Event α)).getLast? = some (Event.setBusy false) := by
  cases p <;> rfl

theorem scope_foldl {α : Type} (p : Bool) (s : CtrlSet) :
    (scopeExitEvents p : List (Event α)).foldl applyEvent s = ⟨false, false⟩ := by
  cases p <;> rfl

theorem scope_gripperCmds {α : Type} (p : Bool) :
    gripperCmds (scopeExitEvents p : List (Event α)) = [false] := by
  cases p <;> rfl

theorem gripperCmds_append {α : Type} (l₁ l₂ : List (Event α)) :
    gripperCmds (l₁ ++ l₂) = gripperCmds l₁ ++ gripperCmds l₂ :=
  List.filterMap_append _ _ _

/-- C3: every exit path of a cycle (completion, planning failure, deadline
miss, execution error, grasp timeout, grasp loss) ends with the ScopeExit
cleanup, in order: move the transport group to its wait pose (synchronously
iff `proceed` ended false, asynchronously followed by a 3 s pause iff it
ended true), release the gripper, deactivate both controllers, stop the
monitor timer, and clear the busy flag last; consequently the trace's last
event clears the busy flag, the active-controller state after the trace is
both-inactive from any starting state, and the last gripper command is a
release. -/
theorem cycle_always_cleans_up {α : Type} [Mul α] (pr plr : α) (env : CycleEnv)
    (task : Task α) (init : CtrlSet) :
    ∃ (l : List (Event α)) (p : Bool),
      runCycle pr plr env task =
        l ++ ((if p then moveToWaitEvents true ++ [Event.sleep 3] else moveToWaitEvents false) ++
          [Event.gripper false, Event.switchCtrl .arm false, Event.switchCtrl .rail false,
            Event.monitorStop, Event.setBusy false]) ∧
      (runCycle pr plr env task).getLast? = some (Event.setBusy false) ∧
      (runCycle pr plr env task).foldl applyEvent init = ⟨false, false⟩ ∧
      lastGripperCmd (runCycle pr plr env task) = some false := by
  obtain ⟨l, p, h⟩ := runCycle_suffix pr plr env task
  refine ⟨l, p, h, ?_, ?_, ?_⟩
  · rw [h, List.getLast?_append_of_ne_nil _ (scope_ne_nil p), scope_getLast]
  · rw [h, List.foldl_append, scope_foldl]
  · rw [lastGripperCmd, h, gripperCmds_append, scope_gripperCmds,
      List.getLast?_append_of_ne_nil _ (by simp)]
    rfl

/-- C6: a tick with an empty queue is a no-op; a tick while busy is a no-op
(state and queue unchanged, no cycle trace); otherwise exactly the front
task is removed and the cycle trace begins with the prelude, which sets the
busy flag and pops the queue before any planning or execution event. -/
theorem tick_discipline {α : Type} [Mul α] (pr plr : α) (env : CycleEnv) (st : ExecState α) :
    (st.targets_queue = [] → executionTimerCb pr plr env st = (st, [])) ∧
    (st.busy = true → executionTimerCb pr plr env st = (st, [])) ∧
    (∀ t rest, st.targets_queue = t :: rest → st.busy = false →
      (executionTimerCb pr plr env st).1 = ⟨rest, false⟩ ∧
      ∃ l, (executionTimerCb pr plr env st).2 = preludeEvents ++ l) ∧
    Event.setBusy true ∈ (preludeEvents : List (Event α)) ∧
    Event.dequeue ∈ (preludeEvents : List (Event α)) ∧
    (∀ g sg pose tol, Event.planRequest g sg pose tol ∉ (preludeEvents : List (Event α))) ∧
    (∀ g sg, Event.execTrajectory g sg ∉ (preludeEvents : List (Event α))) := by
  refine ⟨?_, ?_, ?_, ?_, ?_, ?_, ?_⟩
  · intro h
    simp [executionTimerCb, h]
  · intro hb
    cases hq : st.targets_queue
    · simp [executionTimerCb, hq]
    · simp [executionTimerCb, hq, hb]
  · intro t rest hq hb
    refine ⟨by simp [executionTimerCb, hq, hb], ?_⟩
    simp only [executionTimerCb, hq, hb, Bool.false_eq_true, if_false, runCycle,
      List.append_assoc]
    exact ⟨_, rfl⟩
  · simp [preludeEvents]
  · simp [preludeEvents]
  · intro g sg pose tol
    simp [preludeEvents]
  · intro g sg
    simp [preludeEvents]

/-- C8: when approach planning fails the cycle aborts immediately, with no
trajectory execution of any segment for that task; when an approach plan is
found, the approach execution is attempted and the pipeline proceeds to the
pick planning regardless of the approach execution result (the result bit
does not influence the trace at all). -/
theorem approach_failure_semantics {α : Type} [Mul α] (pr plr : α) (env : CycleEnv)
    (task : Task α) :
    (env.approachPlan = none →
      runCycle pr plr env task =
        preludeEvents ++
          [Event.planRequest .rail .approach (rotate_pose task.approachPose pr) (1 / 10)] ++
          scopeExitEvents true ∧
      ∀ g sg, Event.execTrajectory g sg ∉ runCycle pr plr env task) ∧
    (∀ ap, env.approachPlan = some ap →
      Event.execTrajectory Grp.rail Seg.approach ∈ runCycle pr plr env task ∧
      Event.planRequest Grp.arm Seg.pick (rotate_pose task.pickPose pr) (1 / 10) ∈
        runCycle pr plr env task) ∧
    (∀ b, runCycle pr plr env task = runCycle pr plr { env with approachExecOk := b } task) := by
  refine ⟨?_, ?_, ?_⟩
  · intro h
    constructor
    · simp [runCycle, h]
    · intro g sg
      simp [runCycle, h, preludeEvents, scopeExitEvents, moveToWaitEvents]
  · intro ap h
    constructor
    · simp [runCycle, h, execTrajEvents]
    · simp [runCycle, h, pickSection, List.mem_append]
  · intro b
    cases env
    rfl

theorem suffix_append_fix {α : Type} (A : List (Event α)) {X : List (Event α)} {p : Bool}
    (h : ∃ l, X = l ++ scopeExitEvents p) : ∃ l, A ++ X = l ++ scopeExitEvents p := by
  obtain ⟨l, hX⟩ := h
  exact ⟨A ++ l, by rw [hX, List.append_assoc]⟩

theorem scope_self_fix {α : Type} {p : Bool} :
    ∃ l, (scopeExitEvents p : List (Event α)) = l ++ scopeExitEvents p :=
  ⟨[], (List.nil_append _).symm⟩

/-- C1: once a pick trajectory is planned, the deadline gate at a single
time snapshot decides whether the cycle proceeds: the grasp-actuator enable
is issued iff `now + plannedDuration ≤ pick.referenceTime`; when the gate
passes, the blocking wait before that enable is
`(referenceTime − now) − plannedDuration`, with `plannedDuration` the last
waypoint's time-from-start; when the gate fails the cycle aborts without
attempting the pick motion. -/
theorem deadline_gate {α : Type} [Mul α] (pr plr : α) (env : CycleEnv) (task : Task α)
    (t : Traj) (ha : env.approachPlan.isSome = true) (hp : env.pickPlan = some t) :
    (Event.gripper true ∈ runCycle pr plr env task ↔
      env.now + t.duration ≤ task.pickTime) ∧
    (env.now + t.duration ≤ task.pickTime →
      Event.sleep (task.pickTime - env.now - t.duration) ∈ runCycle pr plr env task) ∧
    (task.pickTime < env.now + t.duration →
      Event.execTrajectory Grp.arm Seg.pick ∉ runCycle pr plr env task ∧
      ∃ l, runCycle pr plr env task = l ++ scopeExitEvents true) := by
  rcases hap : env.approachPlan with _ | ap
  · rw [hap] at ha
    exact absurd ha (by simp)
  by_cases hg : task.pickTime < env.now + t.duration
  · have htr :
        runCycle pr plr env task =
          preludeEvents ++
            [Event.planRequest .rail .approach (rotate_pose task.approachPose pr) (1 / 10)] ++
            (execTrajEvents .rail .approach ++
              ([Event.planRequest .arm .pick (rotate_pose task.pickPose pr) (1 / 10)] ++
                scopeExitEvents true)) := by
      simp only [runCycle, hap, pickSection, hp, if_pos hg]
    refine ⟨?_, ?_, ?_⟩
    · refine iff_of_false ?_ (not_le.mpr hg)
      rw [htr]
      simp [preludeEvents, execTrajEvents, scopeExitEvents, moveToWaitEvents]
    · intro hle
      exact absurd hg (not_lt.mpr hle)
    · intro _
      constructor
      · rw [htr]
        simp [preludeEvents, execTrajEvents, scopeExitEvents, moveToWaitEvents]
      · rw [htr]
        exact suffix_append_fix _ (suffix_append_fix _ (suffix_append_fix _ scope_self_fix))
  · have hle : env.now + t.duration ≤ task.pickTime := not_lt.mp hg
    refine ⟨?_, ?_, ?_⟩
    · refine iff_of_true ?_ hle
      simp only [runCycle, hap, pickSection, hp, if_neg hg]
      simp
    · intro _
      simp only [runCycle, hap, pickSection, hp, if_neg hg]
      simp
    · intro hlt
      exact absurd hlt hg

/-- C10: a failed gripper-enable request after the deadline wait aborts the
cycle before the pick trajectory execution, with the cleanup suffix still
appended and `proceed` still true. -/
theorem gripper_enable_failure_aborts {α : Type} [Mul α] (pr plr : α) (env : CycleEnv)
    (task : Task α) (t : Traj) (ha : env.approachPlan.isSome = true)
    (hp : env.pickPlan = some t) (hg : env.now + t.duration ≤ task.pickTime)
    (hfail : env.gripperOnOk = false) :
    Event.gripper true ∈ runCycle pr plr env task ∧
    Event.execTrajectory Grp.arm Seg.pick ∉ runCycle pr plr env task ∧
    ∃ l, runCycle pr plr env task = l ++ scopeExitEvents true := by
  rcases hap : env.approachPlan with _ | ap
  · rw [hap] at ha
    exact absurd ha (by simp)
  have htr :
      runCycle pr plr env task =
        preludeEvents ++
          [Event.planRequest .rail .approach (rotate_pose task.approachPose pr) (1 / 10)] ++
          (execTrajEvents .rail .approach ++
            ([Event.planRequest .arm .pick (rotate_pose task.pickPose pr) (1 / 10)] ++
              ([Event.sleep (task.pickTime - env.now - t.duration), Event.gripper true] ++
                scopeExitEvents true))) := by
    simp only [runCycle, hap, pickSection, hp, if_neg (not_lt.mpr hg),
      if_neg (show ¬env.gripperOnOk = true by simp [hfail])]
  refine ⟨?_, ?_, ?_⟩
  · rw [htr]
    simp
  · rw [htr]
    simp [preludeEvents, execTrajEvents, scopeExitEvents, moveToWaitEvents]
  · rw [htr]
    exact suffix_append_fix _ (suffix_append_fix _ (suffix_append_fix _
      (suffix_append_fix _ scope_self_fix)))

/-- C7: after the pick execution the cycle polls the attachment flag every
0.01 s for up to 2 s (exactly 200 polls); if no poll observes attachment the
cycle aborts with no retreat and no place execution, cleanup running with
`proceed` true; if a poll observes attachment the pipeline continues by
installing the stop-on-detach monitor. -/
theorem grasp_timeout_aborts {α : Type} [Mul α] (pr plr : α) (env : CycleEnv)
    (task : Task α) (t : Traj) (ha : env.approachPlan.isSome = true)
    (hp : env.pickPlan = some t) (hg : env.now + t.duration ≤ task.pickTime)
    (hok : env.gripperOnOk = true) :
    (wait_until_attached env.attached WAIT_ATTACHED_TIME WAIT_PERIOD = true ↔
      ∃ k, k < 200 ∧ env.attached k = true) ∧
    (wait_until_attached env.attached WAIT_ATTACHED_TIME WAIT_PERIOD = false →
      Event.execTrajectory Grp.arm Seg.retreat ∉ runCycle pr plr env task ∧
      Event.execTrajectory Grp.rail Seg.place ∉ runCycle pr plr env task ∧
      ∃ l, runCycle pr plr env task = l ++ scopeExitEvents true) ∧
    (wait_until_attached env.attached WAIT_ATTACHED_TIME WAIT_PERIOD = true →
      Event.monitorStart MonitorMode.stopOnDetach ∈ runCycle pr plr env task) := by
  rcases hap : env.approachPlan with _ | ap
  · rw [hap] at ha
    exact absurd ha (by simp)
  refine ⟨wait_until_attached_iff env.attached, ?_, ?_⟩
  · intro hw
    have htr :
        runCycle pr plr env task =
          preludeEvents ++
            [Event.planRequest .rail .approach (rotate_pose task.approachPose pr) (1 / 10)] ++
            (execTrajEvents .rail .approach ++
              ([Event.planRequest .arm .pick (rotate_pose task.pickPose pr) (1 / 10)] ++
                ([Event.sleep (task.pickTime - env.now - t.duration), Event.gripper true] ++
                  ([Event.monitorStart .stopOnAttach] ++ execTrajEvents .arm .pick ++
                      [Event.monitorStop] ++
                    scopeExitEvents true)))) := by
      simp only [runCycle, hap, pickSection, hp, if_neg (not_lt.mpr hg), if_pos hok,
        if_neg (show ¬wait_until_attached env.attached WAIT_ATTACHED_TIME WAIT_PERIOD = true
          by simp [hw])]
    refine ⟨?_, ?_, ?_⟩
    · rw [htr]
      simp [preludeEvents, execTrajEvents, scopeExitEvents, moveToWaitEvents]
    · rw [htr]
      simp [preludeEvents, execTrajEvents, scopeExitEvents, moveToWaitEvents]
    · rw [htr]
      refine suffix_append_fix _ (suffix_append_fix _ (suffix_append_fix _
        (suffix_append_fix _ ?_)))
      simp only [List.append_assoc]
      exact suffix_append_fix _ (suffix_append_fix _ (suffix_append_fix _ scope_self_fix))
  · intro hw
    simp only [runCycle, hap, pickSection, hp, if_neg (not_lt.mpr hg), if_pos hok, if_pos hw]
    simp

/-- a concrete cycle environment in which every collaborator succeeds,
attachment is observed at the first poll, and the grasp is never lost. -/
def happyEnv : CycleEnv where
  now := 0
  approachPlan := some ⟨[1]⟩
  approachExecOk := true
  pickPlan := some ⟨[2]⟩
  gripperOnOk := true
  pickExecOk := true
  attached := fun _ => true
  lossPoint := none
  retreatPlan := some ⟨[1]⟩
  retreatExecOk := true
  placePlan := some ⟨[1]⟩
  placeExecOk := true
  gripperOffOk := true

/-- a concrete task whose pick deadline is comfortably in the future. -/
def sampleTask : Task Unit := ⟨(), (), (), (), 5⟩

theorem sample_gate : (0 : ℚ) + 2 ≤ 5 := by norm_num

theorem deadline_gate_witness :
    Event.gripper true ∈ runCycle () () happyEnv sampleTask :=
  (deadline_gate () () happyEnv sampleTask ⟨[2]⟩ rfl rfl).1.mpr sample_gate

theorem gripper_enable_failure_witness :
    Event.execTrajectory Grp.arm Seg.pick ∉
      runCycle () () { happyEnv with gripperOnOk := false } sampleTask :=
  (gripper_enable_failure_aborts () () { happyEnv with gripperOnOk := false } sampleTask
    ⟨[2]⟩ rfl rfl sample_gate rfl).2.1

theorem waitLoop_false : ∀ n i, waitLoop (fun _ => false) n i = false := by
  intro n
  induction n with
  | zero => intro i; rfl
  | succ n ih =>
    intro i
    rw [waitLoop]
    simpa using ih (i + 1)

theorem grasp_timeout_witness :
    Event.execTrajectory Grp.rail Seg.place ∉
      runCycle () () { happyEnv with attached := fun _ => false } sampleTask :=
  ((grasp_timeout_aborts () () { happyEnv with attached := fun _ => false } sampleTask
    ⟨[2]⟩ rfl rfl sample_gate rfl).2.1 (by
      show wait_until_attached (fun _ => false) WAIT_ATTACHED_TIME WAIT_PERIOD = false
      rw [wait_until_attached, iterCount_wait]
      exact waitLoop_false 200 0)).2.1

/-- C2 (amended): the cleanup guard observes `proceed = false` — and hence
moves the transport group to its wait pose synchronously — exactly when the
detach monitor recorded a lost grasp during the cycle; the other fatal
aborts (planning failure, deadline miss, grasp timeout, gripper-enable
failure) leave `proceed` true, so on those paths the guard moves the
transport group asynchronously. -/
theorem guard_sync_iff_grasp_lost {α : Type} [Mul α] (pr plr : α) (env : CycleEnv)
    (task : Task α) :
    (Event.moveNamed Grp.rail false ∈ runCycle pr plr env task ↔
      Event.graspLost ∈ runCycle pr plr env task) ∧
    (Event.moveNamed Grp.rail true ∈ runCycle pr plr env task ↔
      Event.graspLost ∉ runCycle pr plr env task) := by
  rcases hap : env.approachPlan with _ | ap
  · simp [runCycle, pickSection, retreatSection, placeSection, preludeEvents, execTrajEvents,
      scopeExitEvents, moveToWaitEvents, lossEvents, hap]
  rcases hpp : env.pickPlan with _ | pt
  · simp [runCycle, pickSection, retreatSection, placeSection, preludeEvents, execTrajEvents,
      scopeExitEvents, moveToWaitEvents, lossEvents, hap, hpp]
  by_cases hg : task.pickTime < env.now + pt.duration
  · simp [runCycle, pickSection, retreatSection, placeSection, preludeEvents, execTrajEvents,
      scopeExitEvents, moveToWaitEvents, lossEvents, hap, hpp, hg]
  by_cases hgo : env.gripperOnOk = true
  case neg =>
    simp [runCycle, pickSection, retreatSection, placeSection, preludeEvents, execTrajEvents,
      scopeExitEvents, moveToWaitEvents, lossEvents, hap, hpp, hg, hgo]
  by_cases hw : wait_until_attached env.attached WAIT_ATTACHED_TIME WAIT_PERIOD = true
  case neg =>
    simp [runCycle, pickSection, retreatSection, placeSection, preludeEvents, execTrajEvents,
      scopeExitEvents, moveToWaitEvents, lossEvents, hap, hpp, hg, hgo, hw]
  rcases hlp : env.lossPoint with _ | k
  · rcases hrt : env.retreatPlan with _ | rt <;> rcases hpl : env.placePlan with _ | pl <;>
      simp [runCycle, pickSection, retreatSection, placeSection, preludeEvents, execTrajEvents,
        scopeExitEvents, moveToWaitEvents, lossEvents, hap, hpp, hg, hgo, hw, hlp, hrt, hpl]
  · rcases k with _ | _ | _ | _ | k <;> rcases hrt : env.retreatPlan with _ | rt <;>
      rcases hpl : env.placePlan with _ | pl <;>
        simp [runCycle, pickSection, retreatSection, placeSection, preludeEvents, execTrajEvents,
          scopeExitEvents, moveToWaitEvents, lossEvents, hap, hpp, hg, hgo, hw, hlp, hrt, hpl]

/-- C2 counterexample to the claim as stated: a pick-planning failure is a
fatal abort, yet the cycle exits with `proceed` still true: the guard issues
the asynchronous wait-pose move, not the synchronous one, and no loss was
recorded. -/
theorem planning_failure_leaves_proceed_true :
    Event.moveNamed Grp.rail true ∈
        runCycle () () { happyEnv with pickPlan := none } sampleTask ∧
      Event.moveNamed Grp.rail false ∉
        runCycle () () { happyEnv with pickPlan := none } sampleTask ∧
      Event.graspLost ∉ runCycle () () { happyEnv with pickPlan := none } sampleTask := by
  refine ⟨?_, ?_, ?_⟩ <;>
    simp [runCycle, pickSection, preludeEvents, execTrajEvents, scopeExitEvents,
      moveToWaitEvents, happyEnv, sampleTask]

/-- C4 (amended): from the moment the detach monitor sets `proceed = false`,
the only trajectory execution that can still be issued is the retreat
execution already in the pipeline — the retreat execution call is not gated
by `proceed` (the check sits after it); in particular no place, pick or
approach execution ever follows a recorded grasp loss, and only the
cleanup/return sequence runs after the post-retreat check. -/
theorem after_loss_only_retreat {α : Type} [Mul α] (pr plr : α) (env : CycleEnv)
    (task : Task α) :
    ∀ e ∈ afterLoss (runCycle pr plr env task), isExecEvent e = true →
      e = Event.execTrajectory Grp.arm Seg.retreat := by
  rcases hap : env.approachPlan with _ | ap
  · simp [runCycle, pickSection, retreatSection, placeSection, preludeEvents, execTrajEvents,
      scopeExitEvents, moveToWaitEvents, lossEvents, afterLoss, isLost, isExecEvent,
      List.dropWhile_cons, List.dropWhile_append, hap]
  rcases hpp : env.pickPlan with _ | pt
  · simp [runCycle, pickSection, retreatSection, placeSection, preludeEvents, execTrajEvents,
      scopeExitEvents, moveToWaitEvents, lossEvents, afterLoss, isLost, isExecEvent,
      List.dropWhile_cons, List.dropWhile_append, hap, hpp]
  by_cases hg : task.pickTime < env.now + pt.duration
  · simp [runCycle, pickSection, retreatSection, placeSection, preludeEvents, execTrajEvents,
      scopeExitEvents, moveToWaitEvents, lossEvents, afterLoss, isLost, isExecEvent,
      List.dropWhile_cons, List.dropWhile_append, hap, hpp, hg]
  by_cases hgo : env.gripperOnOk = true
  case neg =>
    simp [runCycle, pickSection, retreatSection, placeSection, preludeEvents, execTrajEvents,
      scopeExitEvents, moveToWaitEvents, lossEvents, afterLoss, isLost, isExecEvent,
      List.dropWhile_cons, List.dropWhile_append, hap, hpp, hg, hgo]
  by_cases hw : wait_until_attached env.attached WAIT_ATTACHED_TIME WAIT_PERIOD = true
  case neg =>
    simp [runCycle, pickSection, retreatSection, placeSection, preludeEvents, execTrajEvents,
      scopeExitEvents, moveToWaitEvents, lossEvents, afterLoss, isLost, isExecEvent,
      List.dropWhile_cons, List.dropWhile_append, hap, hpp, hg, hgo, hw]
  rcases hlp : env.lossPoint with _ | k
  · rcases hrt : env.retreatPlan with _ | rt <;> rcases hpl : env.placePlan with _ | pl <;>
      simp [runCycle, pickSection, retreatSection, placeSection, preludeEvents, execTrajEvents,
        scopeExitEvents, moveToWaitEvents, lossEvents, afterLoss, isLost, isExecEvent,
        List.dropWhile_cons, List.dropWhile_append, hap, hpp, hg, hgo, hw, hlp, hrt, hpl]
  · rcases k with _ | _ | _ | _ | k <;> rcases hrt : env.retreatPlan with _ | rt <;>
      rcases hpl : env.placePlan with _ | pl <;>
        simp [runCycle, pickSection, retreatSection, placeSection, preludeEvents, execTrajEvents,
          scopeExitEvents, moveToWaitEvents, lossEvents, afterLoss, isLost, isExecEvent,
          List.dropWhile_cons, List.dropWhile_append, hap, hpp, hg, hgo, hw, hlp, hrt, hpl]

/-- C4 counterexample to the claim as stated: with a grasp loss detected
after attachment but before the retreat move, the retreat execution is
still issued after `proceed` became false — the subsequent segment attempt
is not skipped. -/
theorem retreat_not_gated_by_proceed :
    Event.execTrajectory Grp.arm Seg.retreat ∈
      afterLoss (runCycle () () { happyEnv with lossPoint := some 0 } sampleTask) := by
  simp [runCycle, pickSection, retreatSection, placeSection, preludeEvents, execTrajEvents,
    scopeExitEvents, moveToWaitEvents, lossEvents, afterLoss, isLost,
    List.dropWhile_cons, List.dropWhile_append, happyEnv, sampleTask, Traj.duration,
    wait_until_attached, iterCount_wait, waitLoop, show ¬((5 : ℚ) < 2) by norm_num]

theorem ctrlInv_prelude {α : Type} (a r : Bool) (h : cardLE1 ⟨a, r⟩ = true)
    (X : List (Event α)) :
    ctrlInv ⟨a, r⟩ (preludeEvents ++ X) = ctrlInv ⟨false, false⟩ X := by
  cases a <;> cases r <;>
    simp_all [preludeEvents, ctrlInv, ctrlInv_append, applyEvent, cardLE1]

/-- C5: assuming every best-effort controller switch succeeds, a cycle trace
started from any state with at most one active controller keeps at most one
controller active at every step, and at each trajectory execution exactly
the executing group's controller is active, the other having been switched
off beforehand (break-before-make, sequential handover). -/
theorem controller_exclusion {α : Type} [Mul α] (pr plr : α) (env : CycleEnv)
    (task : Task α) (init : CtrlSet) (h : cardLE1 init = true) :
    ctrlInv init (runCycle pr plr env task) = true := by
  obtain ⟨a, r⟩ := init
  rw [runCycle, List.append_assoc, ctrlInv_prelude a r h]
  rcases hap : env.approachPlan with _ | ap
  · simp [pickSection, retreatSection, placeSection, execTrajEvents, scopeExitEvents,
      moveToWaitEvents, lossEvents, ctrlInv, ctrlInv_append, applyEvent, cardLE1, activeOnly,
      ctrlOf, hap]
  rcases hpp : env.pickPlan with _ | pt
  · simp [pickSection, retreatSection, placeSection, execTrajEvents, scopeExitEvents,
      moveToWaitEvents, lossEvents, ctrlInv, ctrlInv_append, applyEvent, cardLE1, activeOnly,
      ctrlOf, hap, hpp]
  by_cases hg : task.pickTime < env.now + pt.duration
  · simp [pickSection, retreatSection, placeSection, execTrajEvents, scopeExitEvents,
      moveToWaitEvents, lossEvents, ctrlInv, ctrlInv_append, applyEvent, cardLE1, activeOnly,
      ctrlOf, hap, hpp, hg]
  by_cases hgo : env.gripperOnOk = true
  case neg =>
    simp [pickSection, retreatSection, placeSection, execTrajEvents, scopeExitEvents,
      moveToWaitEvents, lossEvents, ctrlInv, ctrlInv_append, applyEvent, cardLE1, activeOnly,
      ctrlOf, hap, hpp, hg, hgo]
  by_cases hw : wait_until_attached env.attached WAIT_ATTACHED_TIME WAIT_PERIOD = true
  case neg =>
    simp [pickSection, retreatSection, placeSection, execTrajEvents, scopeExitEvents,
      moveToWaitEvents, lossEvents, ctrlInv, ctrlInv_append, applyEvent, cardLE1, activeOnly,
      ctrlOf, hap, hpp, hg, hgo, hw]
  rcases hlp : env.lossPoint with _ | k
  · rcases hrt : env.retreatPlan with _ | rt <;> rcases hpl : env.placePlan with _ | pl <;>
      simp [pickSection, retreatSection, placeSection, execTrajEvents, scopeExitEvents,
        moveToWaitEvents, lossEvents, ctrlInv, ctrlInv_append, applyEvent, cardLE1, activeOnly,
        ctrlOf, hap, hpp, hg, hgo, hw, hlp, hrt, hpl]
  · rcases k with _ | _ | _ | _ | k <;> rcases hrt : env.retreatPlan with _ | rt <;>
      rcases hpl : env.placePlan with _ | pl <;>
        simp [pickSection, retreatSection, placeSection, execTrajEvents, scopeExitEvents,
          moveToWaitEvents, lossEvents, ctrlInv, ctrlInv_append, applyEvent, cardLE1, activeOnly,
          ctrlOf, hap, hpp, hg, hgo, hw, hlp, hrt, hpl]

theorem controller_exclusion_witness :
    ctrlInv ⟨false, false⟩ (runCycle () () happyEnv sampleTask) = true :=
  controller_exclusion () () happyEnv sampleTask ⟨false, false⟩ rfl

/-- C9: each cycle plans the approach, pick and retreat segments on poses
rotated about the vertical axis by the configured preferred pick angle with
yaw tolerance 0.1, and plans the place segment on a pose rotated by that
angle plus a half-turn with the strictly wider yaw tolerance 3.14. -/
theorem grasp_angle_rotations (angle : ℝ) (env : CycleEnv) (task : Task (Quaternion ℝ))
    (t : Traj) (ha : env.approachPlan.isSome = true) (hp : env.pickPlan = some t)
    (hg : env.now + t.duration ≤ task.pickTime) (hok : env.gripperOnOk = true)
    (hw : wait_until_attached env.attached WAIT_ATTACHED_TIME WAIT_PERIOD = true)
    (hrt : env.retreatPlan.isSome = true)
    (h0 : env.lossPoint ≠ some 0) (h1 : env.lossPoint ≠ some 1) :
    Event.planRequest Grp.rail Seg.approach (task.approachPose * rotZ angle) (1 / 10) ∈
      runCycle (pick_rotation_of angle) (place_rotation_of angle) env task ∧
    Event.planRequest Grp.arm Seg.pick (task.pickPose * rotZ angle) (1 / 10) ∈
      runCycle (pick_rotation_of angle) (place_rotation_of angle) env task ∧
    Event.planRequest Grp.arm Seg.retreat (task.retreatPose * rotZ angle) (1 / 10) ∈
      runCycle (pick_rotation_of angle) (place_rotation_of angle) env task ∧
    Event.planRequest Grp.rail Seg.place (task.placePose * rotZ (angle + Real.pi)) (157 / 50) ∈
      runCycle (pick_rotation_of angle) (place_rotation_of angle) env task ∧
    (orientation_tolerances (1 / 10)).getLastD 0 <
      (orientation_tolerances (157 / 50)).getLastD 0 := by
  rcases hap : env.approachPlan with _ | ap
  · rw [hap] at ha
    exact absurd ha (by simp)
  rcases hret : env.retreatPlan with _ | rt
  · rw [hret] at hrt
    exact absurd hrt (by simp)
  have hrot : ∀ q : Quaternion ℝ, rotate_pose q (pick_rotation_of angle) = q * rotZ angle := by
    intro q
    rw [rotate_pose, pick_rotation_eq_rotZ]
  have hrot2 : ∀ q : Quaternion ℝ,
      rotate_pose q (place_rotation_of angle) = q * rotZ (angle + Real.pi) := by
    intro q
    rw [rotate_pose, place_rotation_eq_rotZ]
  refine ⟨?_, ?_, ?_, ?_, ?_⟩
  · simp [runCycle, hap, hrot]
  · simp [runCycle, pickSection, hap, hp, hrot]
  · simp [runCycle, pickSection, retreatSection, hap, hp, if_neg (not_lt.mpr hg), hok, hw,
      hrot]
  · simp [runCycle, pickSection, retreatSection, placeSection, hap, hp,
      if_neg (not_lt.mpr hg), hok, hw, hret, hrot, hrot2,
      if_neg (show ¬(env.lossPoint = some 0 ∨ env.lossPoint = some 1) by simp [h0, h1])]
  · simp only [orientation_tolerances, List.getLastD]
    norm_num

/-- a concrete task with identity orientations, for the rotation claim. -/
noncomputable def qTask : Task (Quaternion ℝ) := ⟨1, 1, 1, 1, 5⟩

theorem grasp_angle_rotations_witness :
    Event.planRequest Grp.rail Seg.place (qTask.placePose * rotZ (0 + Real.pi)) (157 / 50) ∈
      runCycle (pick_rotation_of 0) (place_rotation_of 0) happyEnv qTask :=
  (grasp_angle_rotations 0 happyEnv qTask ⟨[2]⟩ rfl rfl sample_gate rfl
    (by rw [wait_until_attached, iterCount_wait]; rfl) rfl (by simp [happyEnv])
    (by simp [happyEnv])).2.2.2.1

theorem after_loss_only_retreat_witness :
    (Event.execTrajectory Grp.arm Seg.retreat : Event Unit) =
      Event.execTrajectory Grp.arm Seg.retreat :=
  after_loss_only_retreat () () { happyEnv with lossPoint := some 0 } sampleTask
    (Event.execTrajectory Grp.arm Seg.retreat)
    (by
      simp [runCycle, pickSection, retreatSection, placeSection, preludeEvents, execTrajEvents,
        scopeExitEvents, moveToWaitEvents, lossEvents, afterLoss, isLost,
        List.dropWhile_cons, List.dropWhile_append, happyEnv, sampleTask, Traj.duration,
        wait_until_attached, iterCount_wait, waitLoop, show ¬((5 : ℚ) < 2) by norm_num])
    rfl

end Gilbreth
